import Mathlib

/-!
Shallow embedding of the cv-chat backend of this repository.

The repository ships two Express server variants:
* `src/unnamed/part_001` — the deployed server described by the readme:
  serves `index.html` at the root path, exposes `POST /api/chat` behind an
  `express-rate-limit` middleware (24 h window, 50 requests), forwards the
  conversation to the OpenAI chat-completion API and shapes the reply into
  a single `{ message }` field.
* `src/server.js` — the CORS variant: an origin allow-list middleware, an
  optional `X-Client-Token` shared-secret gate on `POST /chat`, and the raw
  upstream body relayed on success.

JavaScript values are embedded as `JsVal` (with `Option JsVal` standing for
a possibly-`undefined` value, `JsVal.null` for JSON `null`), and the two
request handlers as pure functions from the request body, configuration and
a stubbed upstream outcome to an HTTP result that also records whether the
upstream was contacted.
-/

namespace CvChat

/-- JSON/JavaScript values as the relay manipulates them.  Numbers are
rationals (enough for the integral status codes and the literal sampling
temperatures appearing in the source). -/
inductive JsVal where
  | null
  | bool (b : Bool)
  | num (q : Rat)
  | str (s : String)
  | arr (elems : List JsVal)
  | obj (fields : List (String × JsVal))

/-- JavaScript truthiness of a (non-`undefined`) value: `null`, `false`,
`0` and the empty string are falsy; every array and object is truthy. -/
def jsTruthy : JsVal → Bool
  | .null => false
  | .bool b => b
  | .num q => q != 0
  | .str s => s != ""
  | .arr _ => true
  | .obj _ => true

/-- Property access `v.k` on a value known not to be `null`/`undefined`:
only objects yield a binding; on primitives and arrays the properties the
handlers read (`messages`, `choices`, `error`, `message`, `content`) are
`undefined`, embedded as `none`.  Object keys are assumed distinct, as in
every body the handlers build or receive from JSON parsing. -/
def jsProp (v : JsVal) (k : String) : Option JsVal :=
  match v with
  | .obj fields => (fields.find? (fun p => p.1 == k)).map Prod.snd
  | _ => none

/-- Index access `v[i]`: an array yields its element; an object yields the
property named by the decimal string of the index, since JavaScript
bracket access coerces the numeric key to a string (so `obj[0]` reads
property "0").  (JavaScript string indexing would yield a one-character
string, but every continuation in the handlers reads a named property of
the result, which is `undefined` for a one-character string exactly as for
`undefined` itself, so the distinction is unobservable in the embedded
results.) -/
def jsIndex (v : JsVal) (i : Nat) : Option JsVal :=
  match v with
  | .arr elems => elems.get? i
  | .obj fields => (fields.find? (fun p => p.1 == toString i)).map Prod.snd
  | _ => none

/-- Optional chaining `v?.…`: short-circuits to `undefined` when the base
is `undefined` or `null`, otherwise continues with the access `f`. -/
def jsOptChain (v : Option JsVal) (f : JsVal → Option JsVal) : Option JsVal :=
  match v with
  | none => none
  | some .null => none
  | some w => f w

/-- The expression `req.body || \x7b\x7d` of both handlers: an absent
(`undefined`) or falsy parsed body is replaced by the empty object. -/
def bodyOrEmpty (body? : Option JsVal) : JsVal :=
  match body? with
  | none => .obj []
  | some v => if jsTruthy v then v else .obj []

/-- Whether a value is a JavaScript string. -/
def JsVal.isStr : JsVal → Bool
  | .str _ => true
  | _ => false

/-- `Array.isArray` on a possibly-`undefined` value. -/
def isArrayOpt : Option JsVal → Bool
  | some (.arr _) => true
  | _ => false

/-- Outcome of the outbound `fetch` to the completion API, as a stub.
`netError` covers a rejected `fetch` as well as a `response.json()` that
fails to parse — both throw and land in the handler's `catch`.  `reply`
carries the HTTP status and the parsed JSON body. -/
inductive Upstream where
  | netError
  | reply (status : Nat) (body : JsVal)

/-- `Response.ok` of the Fetch API: status in the inclusive range 200–299. -/
def statusOk (s : Nat) : Bool := 200 ≤ s && s < 300

/-- What a handler sends back, plus whether the upstream API was called. -/
structure HandlerResult where
  status : Nat
  body : JsVal
  upstreamCalled : Bool

/-- The chain `data.error?.message` (for `data` not `null`). -/
def upstreamErrMsg (data : JsVal) : Option JsVal :=
  jsOptChain (jsProp data "error") (fun e => jsProp e "message")

/-- The expression `data.error?.message || fallback`: the extracted message
when it is truthy, otherwise the fixed fallback string. -/
def upstreamErrorField (data : JsVal) (fallback : String) : JsVal :=
  match upstreamErrMsg data with
  | some v => if jsTruthy v then v else .str fallback
  | none => .str fallback

/-- The chain `data.choices?.[0]?.message?.content` (for `data` not
`null`). -/
def completionContent (data : JsVal) : Option JsVal :=
  jsOptChain
    (jsOptChain
      (jsOptChain (jsProp data "choices") (fun c => jsIndex c 0))
      (fun m => jsProp m "message"))
    (fun m => jsProp m "content")

/-- Lines 37–61 of `src/unnamed/part_001`, the part of the `/api/chat`
handler from the `fetch` on: a thrown error (network failure, unparsable
body, or property access on a `null` body) is caught as a 500; a non-ok
status is mirrored with `data.error?.message` or the fixed fallback; a
success answers 200 with the single field `message` holding
`data.choices?.[0]?.message?.content || "No response from AI"`. -/
def apiChatUpstream : Upstream → HandlerResult
  | .netError =>
      ⟨500, .obj [("error", .str "Server error. Please try again.")], true⟩
  | .reply status data =>
      if statusOk status then
        match data with
        | .null =>
            ⟨500, .obj [("error", .str "Server error. Please try again.")], true⟩
        | d =>
            let reply : JsVal :=
              match completionContent d with
              | some v => if jsTruthy v then v else .str "No response from AI"
              | none => .str "No response from AI"
            ⟨200, .obj [("message", reply)], true⟩
      else
        match data with
        | .null =>
            ⟨500, .obj [("error", .str "Server error. Please try again.")], true⟩
        | d =>
            ⟨status, .obj [("error", upstreamErrorField d "OpenAI API error")], true⟩

/-- The `POST /api/chat` handler body of `src/unnamed/part_001`
(lines 24–67), after the rate-limit middleware:
1. destructure `req.body || \x7b\x7d`;
2. reject a non-array `messages` with 400;
3. reject a missing/empty `OPENAI_API_KEY` with 500, before any fetch;
4. hand the stubbed upstream outcome to `apiChatUpstream` (lines 37–61). -/
def apiChat (body? : Option JsVal) (apiKey : Option String) (u : Upstream) :
    HandlerResult :=
  let b := bodyOrEmpty body?
  if isArrayOpt (jsProp b "messages") then
    if apiKey.getD "" == "" then
      ⟨500, .obj [("error", .str "OPENAI_API_KEY is not set on the server")], false⟩
    else
      apiChatUpstream u
  else
    ⟨400, .obj [("error", .str "messages must be an array")], false⟩

/-- The body of the `POST /chat` handler of `src/server.js` (lines 54–88)
after its token gate.  Same validation and configuration checks as
`apiChat`, but: the error fallbacks read "OpenAI error" / "Server error",
and on upstream success the whole parsed body is relayed (`res.json(data)`,
line 84) rather than a shaped single field — a `null` success body is
relayed as-is since that branch performs no property access on it. -/
def chatRest (body? : Option JsVal) (apiKey : Option String) (u : Upstream) :
    HandlerResult :=
  let b := bodyOrEmpty body?
  if isArrayOpt (jsProp b "messages") then
    if apiKey.getD "" == "" then
      ⟨500, .obj [("error", .str "OPENAI_API_KEY is not set on the server")], false⟩
    else
      match u with
      | .netError =>
          ⟨500, .obj [("error", .str "Server error")], true⟩
      | .reply status data =>
          if statusOk status then
            ⟨200, data, true⟩
          else
            match data with
            | .null =>
                ⟨500, .obj [("error", .str "Server error")], true⟩
            | d =>
                ⟨status, .obj [("error", upstreamErrorField d "OpenAI error")], true⟩
  else
    ⟨400, .obj [("error", .str "messages must be an array")], false⟩

/-- The constant `CLIENT_TOKEN = process.env.CLIENT_TOKEN || ""` of
`src/server.js` line 31: an unset variable yields the empty string. -/
def clientTokenOf (env : Option String) : String := env.getD ""

/-- The full `POST /chat` handler of `src/server.js` (lines 41–89).  When
`CLIENT_TOKEN` is non-empty, the request's token header (either case; the
expression `req.header("X-Client-Token") || req.header("x-client-token") || ""`
collapses a missing or empty header to the empty string, and header lookup
is case-insensitive so both calls read the same value) must equal it, or
the request is rejected with 401 before validation and before any upstream
call. -/
def chatHandler (clientToken : String) (tokenHeader : Option String)
    (body? : Option JsVal) (apiKey : Option String) (u : Upstream) :
    HandlerResult :=
  if clientToken != "" && tokenHeader.getD "" != clientToken then
    ⟨401, .obj [("error", .str "Unauthorized")], false⟩
  else
    chatRest body? apiKey u

/-- The origin allow-list of `src/server.js` lines 10–14. -/
def ALLOW_ORIGINS : List String :=
  ["http://localhost:5500",
   "https://juliabaucher.github.io/lab2/",
   "https://your-custom-domain.example"]

/-- What the CORS middleware of `src/server.js` lines 16–26 decides:
whether an `Access-Control-Allow-Origin` header is attached (and with
which value), whether the middleware answered the request itself (the
`OPTIONS` 204 short-circuit), and whether it passed control to the next
handler. -/
structure CorsResult where
  allowOrigin : Option String
  shortCircuitStatus : Option Nat
  passedToNext : Bool

/-- The CORS middleware of `src/server.js` lines 16–26: echo the request's
origin in `Access-Control-Allow-Origin` exactly when it is truthy and on
the allow-list; answer `OPTIONS` preflights with 204; hand every other
request to the next handler.  (The `Vary`, `Allow-Headers` and
`Allow-Methods` headers are set unconditionally and are not modelled.) -/
def corsMiddleware (origin : Option String) (method : String) : CorsResult :=
  let ao : Option String :=
    match origin with
    | some o => if jsTruthy (.str o) && decide (o ∈ ALLOW_ORIGINS) then some o else none
    | none => none
  if method == "OPTIONS" then
    ⟨ao, some 204, false⟩
  else
    ⟨ao, none, true⟩

/-- A static-file response: status, `Content-Type`, and document body. -/
structure FileResponse where
  status : Nat
  contentType : String
  body : String

/-- Modelled from the spec: the static document `index.html` is not under
`src/`, and `res.sendFile` is framework code, so the file send is modelled
from the spec's static-asset contract — return the file's fixed content
with a success status and a content type derived from the `.html`
extension; a filesystem-read failure surfaces as a server-error status.
The filesystem is passed in as a map from path to content. -/
def sendFile (fs : String → Option String) (p : String) : FileResponse :=
  match fs p with
  | some content => ⟨200, if p.takeRight 5 == ".html" then "text/html" else "application/octet-stream", content⟩
  | none => ⟨500, "text/plain", "Internal Server Error"⟩

/-- The `GET /` handler of `src/unnamed/part_001` lines 20–22:
`res.sendFile(path.join(__dirname, "index.html"))` (the directory prefix is
elided; the path is the served document's). -/
def rootGet (fs : String → Option String) : FileResponse :=
  sendFile fs "index.html"

/-- The limiter window configured in `src/unnamed/part_001` line 15:
`windowMs: 24 * 60 * 60 * 1000`, i.e. 24 hours in milliseconds. -/
def windowMs : Nat := 24 * 60 * 60 * 1000

/-- The limiter ceiling configured in `src/unnamed/part_001` line 16. -/
def limitMax : Nat := 50

/-- Per-client limiter bookkeeping: how many requests were counted in the
client's current window, and when that window expires (ms timestamp). -/
structure LimiterEntry where
  hits : Nat
  resetTime : Nat

/-- In-memory limiter table, keyed by client network identity. -/
abbrev LimState := String → Option LimiterEntry

/-- The limiter table at process start: no client has an entry. -/
def emptyLim : LimState := fun _ => none

/-- Modelled from the spec: `express-rate-limit` is a dependency whose code
is not under `src/`; its counting is modelled from the spec's quota-counter
description (fixed 24-hour window per client key, created lazily on the
first request from a key, expired passively on next access) with the
configuration of `src/unnamed/part_001` lines 14–18.  A request at time `t`
from key `k` opens a fresh window when none is active, increments the
window's hit count, and is allowed exactly when the count stays within the
ceiling. -/
def limiterStep (st : LimState) (t : Nat) (k : String) : LimState × Bool :=
  let e : LimiterEntry :=
    match st k with
    | some e0 => if t < e0.resetTime then ⟨e0.hits + 1, e0.resetTime⟩ else ⟨1, t + windowMs⟩
    | none => ⟨1, t + windowMs⟩
  (fun k2 => if k2 = k then some e else st k2, decide (e.hits ≤ limitMax))

/-- The `POST /api/chat` route of `src/unnamed/part_001` line 24 as the
composition of the `chatLimiter` middleware and the handler: a request the
limiter rejects is answered with status 429 and the configured message
object, without reaching the handler (so without any upstream call). -/
def apiChatEndpoint (st : LimState) (t : Nat) (k : String)
    (body? : Option JsVal) (apiKey : Option String) (u : Upstream) :
    LimState × HandlerResult :=
  match limiterStep st t k with
  | (st2, true) => (st2, apiChat body? apiKey u)
  | (st2, false) =>
      (st2, ⟨429, .obj [("error", .str "Too many requests, please try again tomorrow")], false⟩)

/-- The limiter table after `n` identical requests from key `k` at time
`t`, starting from the empty table. -/
def iterateEndpoint (t : Nat) (k : String) (body? : Option JsVal)
    (apiKey : Option String) (u : Upstream) : Nat → LimState
  | 0 => emptyLim
  | n + 1 => (apiChatEndpoint (iterateEndpoint t k body? apiKey u n) t k body? apiKey u).1

/-- A well-formed two-turn conversation body (a system turn and a user
turn), as the spec's round-trip scenario requires. -/
def validBody : Option JsVal :=
  some (.obj [("messages", .arr
    [.obj [("role", .str "system"), ("content", .str "You answer questions about the CV.")],
     .obj [("role", .str "user"), ("content", .str "What is her experience?")]])])

/-- A configured upstream credential. -/
def testKey : Option String := some "sk-test-key"

/-- The canonical success body of the completion API carrying the fixed
completion string `s` as the first choice's message content. -/
def stubBody (s : String) : JsVal :=
  .obj [("choices", .arr [.obj [("message", .obj [("content", .str s)])]])]

/-- A stubbed upstream answering 200 with the completion "Hello!". -/
def goodUpstream : Upstream := .reply 200 (stubBody "Hello!")

/-- When the body carries an array-valued `messages` field and the
credential is configured, the handler's answer is exactly the handling of
the upstream outcome. -/
theorem apiChat_passes (body? : Option JsVal) (apiKey : Option String)
    (u : Upstream)
    (hm : isArrayOpt (jsProp (bodyOrEmpty body?) "messages") = true)
    (hk : apiKey.getD "" ≠ "") :
    apiChat body? apiKey u = apiChatUpstream u := by
  have hk' : (apiKey.getD "" == "") = false := beq_eq_false_iff_ne.mpr hk
  simp [apiChat, hm, hk']

/-- The relayed error field `data.error?.message || fallback` is a
non-empty string whenever the extracted message is, if truthy, a string,
and the fallback is non-empty. -/
theorem upstreamErrorField_nonempty (d : JsVal) (fb : String) (hfb : fb ≠ "")
    (hmsg : ∀ v, upstreamErrMsg d = some v → jsTruthy v = true →
      ∃ s, v = .str s) :
    ∃ s, upstreamErrorField d fb = .str s ∧ s ≠ "" := by
  unfold upstreamErrorField
  cases h : upstreamErrMsg d with
  | none => exact ⟨fb, rfl, hfb⟩
  | some v =>
    by_cases ht : jsTruthy v = true
    · obtain ⟨s, rfl⟩ := hmsg v h ht
      refine ⟨s, by simp [ht], ?_⟩
      simpa [jsTruthy] using ht
    · have ht' : jsTruthy v = false := by
        cases hv : jsTruthy v
        · rfl
        · exact absurd hv ht
      exact ⟨fb, by simp [ht'], hfb⟩

/-- The limiter table produced by the route does not depend on whether the
request was allowed through to the handler. -/
theorem apiChatEndpoint_fst (st : LimState) (t : Nat) (k : String)
    (body? : Option JsVal) (apiKey : Option String) (u : Upstream) :
    (apiChatEndpoint st t k body? apiKey u).1 = (limiterStep st t k).1 := by
  rcases h : limiterStep st t k with ⟨st2, allowed⟩
  cases allowed <;> simp [apiChatEndpoint, h]

/-- A request the limiter allows is answered by the handler. -/
theorem apiChatEndpoint_snd_allowed (st : LimState) (t : Nat) (k : String)
    (body? : Option JsVal) (apiKey : Option String) (u : Upstream)
    (h : (limiterStep st t k).2 = true) :
    (apiChatEndpoint st t k body? apiKey u).2 = apiChat body? apiKey u := by
  rcases hs : limiterStep st t k with ⟨st2, allowed⟩
  rw [hs] at h
  cases h
  simp [apiChatEndpoint, hs]

/-- A request the limiter rejects is answered with 429 and the configured
message, and the upstream is not called. -/
theorem apiChatEndpoint_snd_blocked (st : LimState) (t : Nat) (k : String)
    (body? : Option JsVal) (apiKey : Option String) (u : Upstream)
    (h : (limiterStep st t k).2 = false) :
    (apiChatEndpoint st t k body? apiKey u).2
      = ⟨429, .obj [("error", .str "Too many requests, please try again tomorrow")], false⟩ := by
  rcases hs : limiterStep st t k with ⟨st2, allowed⟩
  rw [hs] at h
  cases h
  simp [apiChatEndpoint, hs]

/-- After `n + 1` requests from key `k` at time `t` starting from the
empty table, the key's counter shows `n + 1` hits in the window that
expires at `t + windowMs`. -/
theorem iterate_lookup (t : Nat) (k : String) (body? : Option JsVal)
    (apiKey : Option String) (u : Upstream) :
    ∀ n : Nat, iterateEndpoint t k body? apiKey u (n + 1) k
      = some ⟨n + 1, t + windowMs⟩ := by
  intro n
  induction n with
  | zero =>
    show (apiChatEndpoint emptyLim t k body? apiKey u).1 k = _
    rw [apiChatEndpoint_fst]
    simp [limiterStep, emptyLim]
  | succ m ih =>
    show (apiChatEndpoint (iterateEndpoint t k body? apiKey u (m + 1)) t k body? apiKey u).1 k = _
    rw [apiChatEndpoint_fst]
    have hlt : t < t + windowMs := Nat.lt_add_of_pos_right (by decide)
    simp [limiterStep, ih, hlt]

/-- C5: for every request whose body lacks an array-valued `messages`
field (absent, or present but not an array), the relay handler returns
status 400 with the descriptive error message "messages must be an array"
and makes no call to the upstream completion API, whatever the credential
and whatever the stubbed upstream would have answered. -/
theorem c5_bad_messages_rejected (body? : Option JsVal)
    (apiKey : Option String) (u : Upstream)
    (h : isArrayOpt (jsProp (bodyOrEmpty body?) "messages") = false) :
    apiChat body? apiKey u
      = ⟨400, .obj [("error", .str "messages must be an array")], false⟩ := by
  simp [apiChat, h]

/-- Witness for C5: a body whose `messages` field is a string (not an
array) is rejected with 400 and no upstream call. -/
theorem c5_bad_messages_rejected_witness :
    apiChat (some (.obj [("messages", .str "hi")])) testKey goodUpstream
      = ⟨400, .obj [("error", .str "messages must be an array")], false⟩ :=
  c5_bad_messages_rejected (some (.obj [("messages", .str "hi")])) testKey
    goodUpstream rfl

/-- C7: for every request to `POST /chat` of `src/server.js`, if the
shared-secret token is configured (non-empty) and the request's
`X-Client-Token` header is missing or does not match it, the handler
answers 401 Unauthorized without reaching body validation and without any
upstream call.  (This route has no quota middleware, so the rejection
trivially precedes any quota check.) -/
theorem c7_token_gate (clientToken : String) (tokenHeader : Option String)
    (body? : Option JsVal) (apiKey : Option String) (u : Upstream)
    (hc : clientToken ≠ "") (ht : tokenHeader.getD "" ≠ clientToken) :
    chatHandler clientToken tokenHeader body? apiKey u
      = ⟨401, .obj [("error", .str "Unauthorized")], false⟩ := by
  have hc' : (clientToken != "") = true := bne_iff_ne.mpr hc
  have ht' : (tokenHeader.getD "" != clientToken) = true := bne_iff_ne.mpr ht
  simp [chatHandler, hc', ht']

/-- Witness for C7: with the token "secret" configured, a request carrying
no token header is rejected with 401 and no upstream call. -/
theorem c7_token_gate_witness :
    chatHandler "secret" none validBody testKey goodUpstream
      = ⟨401, .obj [("error", .str "Unauthorized")], false⟩ :=
  c7_token_gate "secret" none validBody testKey goodUpstream
    (by decide) (by decide)

/-- C10: if the `CLIENT_TOKEN` environment variable is unset or set to the
empty string, the authorization gate of `POST /chat` is skipped entirely:
whatever `X-Client-Token` header the request carries, the outcome is
exactly that of the rest of the handler (which never consults the header),
so the gate never rejects a request with its 401. -/
theorem c10_empty_token_skips_gate (env : Option String)
    (h : env = none ∨ env = some "") (tokenHeader : Option String)
    (body? : Option JsVal) (apiKey : Option String) (u : Upstream) :
    chatHandler (clientTokenOf env) tokenHeader body? apiKey u
      = chatRest body? apiKey u := by
  have hz : clientTokenOf env = "" := by
    rcases h with rfl | rfl <;> rfl
  rw [hz]
  simp [chatHandler]

/-- Witness for C10: with `CLIENT_TOKEN` unset, a request carrying an
arbitrary token header is handled exactly as the gate-free handler body
handles it. -/
theorem c10_empty_token_skips_gate_witness :
    chatHandler (clientTokenOf none) (some "anything") validBody testKey goodUpstream
      = chatRest validBody testKey goodUpstream :=
  c10_empty_token_skips_gate none (Or.inl rfl) (some "anything") validBody
    testKey goodUpstream

/-- C9: a GET to the root path of `src/unnamed/part_001` sends the fixed
`index.html` document: whenever the filesystem holds a content for that
path, the response is status 200 (a 2xx status, as `statusOk` confirms)
with content type text/html and exactly that document as body. -/
theorem c9_root_serves_html (fs : String → Option String) (content : String)
    (h : fs "index.html" = some content) :
    rootGet fs = ⟨200, "text/html", content⟩ ∧ statusOk 200 = true := by
  constructor
  · unfold rootGet sendFile
    rw [h]
    rfl
  · rfl

/-- Witness for C9: a concrete filesystem holding an HTML document at
`index.html` is served verbatim with 200 and text/html. -/
theorem c9_root_serves_html_witness :
    rootGet (fun p => if p = "index.html" then some "<!DOCTYPE html><html><body>CV</body></html>" else none)
      = ⟨200, "text/html", "<!DOCTYPE html><html><body>CV</body></html>"⟩ ∧
    statusOk 200 = true :=
  c9_root_serves_html
    (fun p => if p = "index.html" then some "<!DOCTYPE html><html><body>CV</body></html>" else none)
    "<!DOCTYPE html><html><body>CV</body></html>" (by simp)

/-- C8: for every non-preflight request, the CORS middleware of
`src/server.js` echoes the requesting origin in
`Access-Control-Allow-Origin` exactly when that origin is on the
allow-list; an origin absent from the list (or an absent Origin header)
yields no such header, while the request is still passed on to the route
handlers and answered. -/
theorem c8_cors_allowlist (method : String) (hm : method ≠ "OPTIONS") :
    (∀ o : String, o ∉ ALLOW_ORIGINS →
      corsMiddleware (some o) method = ⟨none, none, true⟩) ∧
    (∀ o : String, o ∈ ALLOW_ORIGINS →
      corsMiddleware (some o) method = ⟨some o, none, true⟩) ∧
    corsMiddleware none method = ⟨none, none, true⟩ := by
  have hm' : (method == "OPTIONS") = false := beq_eq_false_iff_ne.mpr hm
  refine ⟨?_, ?_, ?_⟩
  · intro o ho
    simp [corsMiddleware, hm', ho]
  · intro o ho
    fin_cases ho <;> simp [corsMiddleware, hm', ALLOW_ORIGINS, jsTruthy]
  · simp [corsMiddleware, hm']

/-- Witness for C8: for a POST, an unlisted origin gets no
`Access-Control-Allow-Origin` header yet the request proceeds, while the
listed local-development origin is echoed back exactly. -/
theorem c8_cors_allowlist_witness :
    corsMiddleware (some "https://evil.example") "POST" = ⟨none, none, true⟩ ∧
    corsMiddleware (some "http://localhost:5500") "POST"
      = ⟨some "http://localhost:5500", none, true⟩ :=
  ⟨(c8_cors_allowlist "POST" (by decide)).1 "https://evil.example" (by decide),
   (c8_cors_allowlist "POST" (by decide)).2.1 "http://localhost:5500" (by decide)⟩

/-- Counterexample to C1 as stated: when the stubbed upstream returns the
empty string as its fixed completion, the relay's `message` field is the
placeholder "No response from AI", not the empty completion string — the
JavaScript `||` treats the empty string as falsy. -/
theorem c1_empty_completion_counterexample :
    apiChat validBody testKey (.reply 200 (stubBody ""))
      = ⟨200, .obj [("message", .str "No response from AI")], true⟩ ∧
    "No response from AI" ≠ "" :=
  ⟨rfl, by decide⟩

/-- C1 (amended to non-empty completion strings): for every request with a
valid conversation and a configured credential, when the stubbed upstream
answers 200 with a fixed non-empty completion string in the first choice's
message content, the relay answers 200 and its body is exactly the one
field `message` holding that string character for character. -/
theorem c1_roundtrip_nonempty (s : String) (hs : s ≠ "")
    (body? : Option JsVal) (apiKey : Option String)
    (hm : isArrayOpt (jsProp (bodyOrEmpty body?) "messages") = true)
    (hk : apiKey.getD "" ≠ "") :
    apiChat body? apiKey (.reply 200 (stubBody s))
      = ⟨200, .obj [("message", .str s)], true⟩ := by
  rw [apiChat_passes body? apiKey (.reply 200 (stubBody s)) hm hk]
  have hs' : (s != "") = true := bne_iff_ne.mpr hs
  simp [apiChatUpstream, statusOk, stubBody, completionContent, jsOptChain,
    jsProp, jsIndex, jsTruthy, hs']

/-- Witness for C1: the valid two-turn conversation relayed against a stub
returning "Hello!" yields exactly the field `message` equal to "Hello!". -/
theorem c1_roundtrip_nonempty_witness :
    apiChat validBody testKey (.reply 200 (stubBody "Hello!"))
      = ⟨200, .obj [("message", .str "Hello!")], true⟩ :=
  c1_roundtrip_nonempty "Hello!" (by decide) validBody testKey rfl (by decide)

/-- Counterexample to C3 as stated: with the credential unset AND an
invalid body (no `messages` array), the relay answers 400 with the
validation message, not 500 — the `messages` validation at lines 28–30 of
`src/unnamed/part_001` (lines 55–57 of `src/server.js`) runs before the
credential check, so the failure is not independent of input validity. -/
theorem c3_invalid_input_counterexample :
    apiChat (some (.obj [])) none goodUpstream
      = ⟨400, .obj [("error", .str "messages must be an array")], false⟩ ∧
    (400 : Nat) ≠ 500 :=
  ⟨rfl, by decide⟩

/-- C3 (amended to valid input): for every request whose body carries an
array-valued `messages` field, if `OPENAI_API_KEY` is unset or empty the
relay answers 500 with the message "OPENAI_API_KEY is not set on the
server" and makes no upstream call, whatever the stubbed upstream would
have answered; with an invalid body the 400 validation error is returned
first instead. -/
theorem c3_missing_key_valid_input (body? : Option JsVal)
    (apiKey : Option String) (u : Upstream)
    (hm : isArrayOpt (jsProp (bodyOrEmpty body?) "messages") = true)
    (hk : apiKey.getD "" = "") :
    apiChat body? apiKey u
      = ⟨500, .obj [("error", .str "OPENAI_API_KEY is not set on the server")], false⟩ := by
  have hk' : (apiKey.getD "" == "") = true := beq_iff_eq.mpr hk
  simp [apiChat, hm, hk']

/-- Witness for C3: a valid two-turn conversation with the credential
unset is answered 500 with the missing-configuration message and no
upstream call. -/
theorem c3_missing_key_valid_input_witness :
    apiChat validBody none goodUpstream
      = ⟨500, .obj [("error", .str "OPENAI_API_KEY is not set on the server")], false⟩ :=
  c3_missing_key_valid_input validBody none goodUpstream rfl rfl

/-- Counterexample to C4 as stated: an upstream success whose body is the
JSON value `null` certainly lacks the first completion's text content, yet
the relay answers 500 (not 2xx with the placeholder): `data.choices` on a
`null` body throws, landing in the catch clause. -/
theorem c4_null_success_counterexample :
    apiChat validBody testKey (.reply 200 .null)
      = ⟨500, .obj [("error", .str "Server error. Please try again.")], true⟩ ∧
    statusOk 500 = false :=
  ⟨rfl, rfl⟩

/-- C4 (amended to non-null success bodies): for every request with a
valid conversation and a configured credential, when the upstream answers
with an ok status and a body other than `null` in which the chain
`choices[0].message.content` is absent, the relay still answers 200 with
the fixed placeholder "No response from AI" as the `message` field. -/
theorem c4_placeholder_on_missing_content (body? : Option JsVal)
    (apiKey : Option String) (status : Nat) (data : JsVal)
    (hm : isArrayOpt (jsProp (bodyOrEmpty body?) "messages") = true)
    (hk : apiKey.getD "" ≠ "")
    (hok : statusOk status = true) (hnn : data ≠ .null)
    (hc : completionContent data = none) :
    apiChat body? apiKey (.reply status data)
      = ⟨200, .obj [("message", .str "No response from AI")], true⟩ := by
  rw [apiChat_passes body? apiKey (.reply status data) hm hk]
  cases data with
  | null => exact absurd rfl hnn
  | bool b => simp [apiChatUpstream, hok, hc]
  | num q => simp [apiChatUpstream, hok, hc]
  | str s => simp [apiChatUpstream, hok, hc]
  | arr elems => simp [apiChatUpstream, hok, hc]
  | obj fields => simp [apiChatUpstream, hok, hc]

/-- Witness for C4: an upstream 200 whose body is an empty object (no
`choices` at all) yields 200 with the placeholder. -/
theorem c4_placeholder_on_missing_content_witness :
    apiChat validBody testKey (.reply 200 (.obj []))
      = ⟨200, .obj [("message", .str "No response from AI")], true⟩ :=
  c4_placeholder_on_missing_content validBody testKey 200 (.obj [])
    rfl (by decide) rfl (by intro h; cases h) rfl

/-- Counterexample to C6 as stated, at two concrete inputs.  First, an
upstream 404 whose body is the JSON value `null` is answered by the relay
with status 500, not with the mirrored upstream status 404 — `data.error`
on a `null` body throws, landing in the catch clause.  Second, an upstream
418 whose body carries the truthy non-string error message `42` is
mirrored, but the relayed `error` field is the number 42, not a non-empty
string. -/
theorem c6_failure_counterexample :
    (apiChat validBody testKey (.reply 404 .null)
      = ⟨500, .obj [("error", .str "Server error. Please try again.")], true⟩ ∧
     (500 : Nat) ≠ 404) ∧
    (apiChat validBody testKey (.reply 418 (.obj [("error", .obj [("message", .num 42)])]))
      = ⟨418, .obj [("error", .num 42)], true⟩ ∧
     JsVal.isStr (.num 42) = false) :=
  ⟨⟨rfl, by decide⟩, ⟨rfl, rfl⟩⟩

/-- C6 (amended): for every request with a valid conversation and a
configured credential: when the upstream answers a non-2xx status with a
body other than `null` whose `error.message`, if a truthy value, is a
string, the relay's status equals that upstream status and its body's
`error` field is a non-empty string; and when the upstream call throws (no
status available), the relay answers 500 with the non-empty error message
"Server error. Please try again." (an upstream failure with a `null` body
also lands in that 500 branch rather than mirroring the status).  The two
exclusions — the `null` failure body, and the truthy non-string
`error.message` relayed as a non-string `error` field — are exactly the
failures of the original claim demonstrated by the counterexample. -/
theorem c6_upstream_failure (body? : Option JsVal) (apiKey : Option String)
    (hm : isArrayOpt (jsProp (bodyOrEmpty body?) "messages") = true)
    (hk : apiKey.getD "" ≠ "") :
    (∀ (status : Nat) (data : JsVal), statusOk status = false →
      data ≠ .null →
      (∀ v, upstreamErrMsg data = some v → jsTruthy v = true →
        ∃ s, v = .str s) →
      (apiChat body? apiKey (.reply status data)).status = status ∧
      ∃ s, (apiChat body? apiKey (.reply status data)).body
            = .obj [("error", .str s)] ∧ s ≠ "") ∧
    apiChat body? apiKey .netError
      = ⟨500, .obj [("error", .str "Server error. Please try again.")], true⟩ := by
  constructor
  · intro status data hok hnn hmsg
    rw [apiChat_passes body? apiKey (.reply status data) hm hk]
    obtain ⟨s, hs, hs0⟩ :=
      upstreamErrorField_nonempty data "OpenAI API error" (by decide) hmsg
    cases data with
    | null => exact absurd rfl hnn
    | bool b => exact ⟨by simp [apiChatUpstream, hok], ⟨s, by simp [apiChatUpstream, hok, hs], hs0⟩⟩
    | num q => exact ⟨by simp [apiChatUpstream, hok], ⟨s, by simp [apiChatUpstream, hok, hs], hs0⟩⟩
    | str s2 => exact ⟨by simp [apiChatUpstream, hok], ⟨s, by simp [apiChatUpstream, hok, hs], hs0⟩⟩
    | arr elems => exact ⟨by simp [apiChatUpstream, hok], ⟨s, by simp [apiChatUpstream, hok, hs], hs0⟩⟩
    | obj fields => exact ⟨by simp [apiChatUpstream, hok], ⟨s, by simp [apiChatUpstream, hok, hs], hs0⟩⟩
  · rw [apiChat_passes body? apiKey .netError hm hk]
    rfl

/-- Witness for C6: a stubbed upstream 404 with the error message "Not
found" is mirrored as a 404 whose `error` field is a non-empty string, and
a stubbed network failure is answered 500 with the fixed non-empty
message. -/
theorem c6_upstream_failure_witness :
    ((apiChat validBody testKey (.reply 404 (.obj [("error", .obj [("message", .str "Not found")])]))).status = 404 ∧
     ∃ s, (apiChat validBody testKey (.reply 404 (.obj [("error", .obj [("message", .str "Not found")])]))).body
            = .obj [("error", .str s)] ∧ s ≠ "") ∧
    apiChat validBody testKey .netError
      = ⟨500, .obj [("error", .str "Server error. Please try again.")], true⟩ := by
  have h := c6_upstream_failure validBody testKey rfl (by decide)
  exact ⟨h.1 404 (.obj [("error", .obj [("message", .str "Not found")])]) rfl
    (by intro hx; cases hx)
    (by intro v hv ht; injection hv with hv2; exact ⟨"Not found", hv2.symm⟩),
    h.2⟩

/-- C2: for any client key and window start, the first 50 valid relayed
requests inside one 24-hour window all succeed with 200 and the relayed
completion; the 51st request within the same window is answered 429 with
the configured retry-later message and without any upstream call; and once
the window has elapsed, a subsequent valid request succeeds again and the
key's counter restarts at 1 hit in a fresh window. -/
theorem c2_quota_lifecycle (t : Nat) (k : String) :
    (∀ i : Nat, i < 50 →
      (apiChatEndpoint (iterateEndpoint t k validBody testKey goodUpstream i) t k
          validBody testKey goodUpstream).2
        = ⟨200, .obj [("message", .str "Hello!")], true⟩) ∧
    (∀ t1 : Nat, t1 < t + windowMs →
      (apiChatEndpoint (iterateEndpoint t k validBody testKey goodUpstream 50) t1 k
          validBody testKey goodUpstream).2
        = ⟨429, .obj [("error", .str "Too many requests, please try again tomorrow")], false⟩) ∧
    (∀ t2 : Nat, t + windowMs ≤ t2 →
      (apiChatEndpoint (iterateEndpoint t k validBody testKey goodUpstream 50) t2 k
          validBody testKey goodUpstream).2
        = ⟨200, .obj [("message", .str "Hello!")], true⟩ ∧
      (apiChatEndpoint (iterateEndpoint t k validBody testKey goodUpstream 50) t2 k
          validBody testKey goodUpstream).1 k
        = some ⟨1, t2 + windowMs⟩) := by
  have hgood : apiChat validBody testKey goodUpstream
      = ⟨200, .obj [("message", .str "Hello!")], true⟩ := rfl
  have h50 : iterateEndpoint t k validBody testKey goodUpstream 50 k
      = some ⟨50, t + windowMs⟩ := by
    have := iterate_lookup t k validBody testKey goodUpstream 49
    norm_num at this
    exact this
  refine ⟨?_, ?_, ?_⟩
  · intro i hi
    have hall : (limiterStep (iterateEndpoint t k validBody testKey goodUpstream i) t k).2 = true := by
      cases i with
      | zero => rfl
      | succ m =>
        have hl := iterate_lookup t k validBody testKey goodUpstream m
        have hlt : t < t + windowMs := Nat.lt_add_of_pos_right (by decide)
        have hle : m + 1 + 1 ≤ limitMax := by
          simp only [limitMax]
          omega
        simp [limiterStep, hl, hlt, hle]
    rw [apiChatEndpoint_snd_allowed _ _ _ _ _ _ hall, hgood]
  · intro t1 ht1
    have hblock : (limiterStep (iterateEndpoint t k validBody testKey goodUpstream 50) t1 k).2 = false := by
      have hgt : ¬ (50 + 1 ≤ limitMax) := by
        simp only [limitMax]
        omega
      simp [limiterStep, h50, ht1, hgt]
    exact apiChatEndpoint_snd_blocked _ _ _ _ _ _ hblock
  · intro t2 ht2
    have hnlt : ¬ (t2 < t + windowMs) := Nat.not_lt.mpr ht2
    have hall : (limiterStep (iterateEndpoint t k validBody testKey goodUpstream 50) t2 k).2 = true := by
      simp [limiterStep, h50, hnlt, limitMax]
    constructor
    · rw [apiChatEndpoint_snd_allowed _ _ _ _ _ _ hall, hgood]
    · rw [apiChatEndpoint_fst]
      simp [limiterStep, h50, hnlt]

/-- Witness for C2: from a fresh limiter table, the client's first request
at time 0 succeeds, the 51st request still inside the window is answered
429 without an upstream call, and a request after the window's expiry
succeeds again with the counter restarted at one hit. -/
theorem c2_quota_lifecycle_witness :
    (apiChatEndpoint (iterateEndpoint 0 "203.0.113.7" validBody testKey goodUpstream 0) 0 "203.0.113.7"
        validBody testKey goodUpstream).2
      = ⟨200, .obj [("message", .str "Hello!")], true⟩ ∧
    (apiChatEndpoint (iterateEndpoint 0 "203.0.113.7" validBody testKey goodUpstream 50) 1 "203.0.113.7"
        validBody testKey goodUpstream).2
      = ⟨429, .obj [("error", .str "Too many requests, please try again tomorrow")], false⟩ ∧
    ((apiChatEndpoint (iterateEndpoint 0 "203.0.113.7" validBody testKey goodUpstream 50) windowMs "203.0.113.7"
        validBody testKey goodUpstream).2
      = ⟨200, .obj [("message", .str "Hello!")], true⟩ ∧
     (apiChatEndpoint (iterateEndpoint 0 "203.0.113.7" validBody testKey goodUpstream 50) windowMs "203.0.113.7"
        validBody testKey goodUpstream).1 "203.0.113.7"
      = some ⟨1, windowMs + windowMs⟩) :=
  ⟨(c2_quota_lifecycle 0 "203.0.113.7").1 0 (by decide),
   (c2_quota_lifecycle 0 "203.0.113.7").2.1 1 (by decide),
   (c2_quota_lifecycle 0 "203.0.113.7").2.2 windowMs (by decide)⟩

end CvChat
